import Mathlib

/-!
Shallow embedding of the hand-tracking pipeline in `src/Main.py`.

The program reads webcam frames, runs an external hand detector, flips the
y-coordinate of every landmark, routes each detected hand to one of two UDP
ports by its handedness label, and sends the records.  The external pieces
(camera, detector, socket, display) are modelled as parameters; the pure
routing and transform logic is translated directly from the source.
-/

namespace Spec2Proof

/-- Constant from Main.py line 8. -/
def ORIGINAL_HEIGHT : Int := 720

/-- Constant from Main.py line 11. -/
def RIGHT_HAND_PORT : Nat := 5052

/-- Constant from Main.py line 12. -/
def LEFT_HAND_PORT : Nat := 5053

/-- A landmark is an (x, y, z) triple of pixel/depth coordinates.  The
detector reports integer pixel coordinates; `Int` also accommodates the
(unclamped) results of the y-flip. -/
abbrev Landmark := Int × Int × Int

/-- Main.py lines 41-43: `create_default_hand_data` returns 21 landmarks all
set to (0, 0, 0). -/
def create_default_hand_data : List Landmark :=
  List.replicate 21 (0, 0, 0)

/-- Main.py lines 45-47: `format_hand_data` maps each landmark
`lm` to `(lm[0], original_height - lm[1], lm[2])`. -/
def format_hand_data (landmarks : List Landmark) (original_height : Int) :
    List Landmark :=
  landmarks.map (fun lm => (lm.1, original_height - lm.2.1, lm.2.2))

/-- A hand observation as consumed by `detect_and_format_hand_data`: the
`hand['type']` handedness label and the `hand['lmList']` landmark list. -/
structure Hand where
  type : String
  lmList : List Landmark

/-- Main.py line 70: the port routing decision,
`RIGHT_HAND_PORT if hand_type == 'Right' else LEFT_HAND_PORT`. -/
def route_port (hand_type : String) : Nat :=
  if hand_type = "Right" then RIGHT_HAND_PORT else LEFT_HAND_PORT

/-- Python dict assignment `d[k] = v`: replace the value at an existing key
in place, otherwise append the new pair at the end (insertion order). -/
def dictInsert (m : List (Nat × List Landmark)) (k : Nat)
    (v : List Landmark) : List (Nat × List Landmark) :=
  if m.any (fun kv => kv.1 = k) then
    m.map (fun kv => if kv.1 = k then (k, v) else kv)
  else
    m ++ [(k, v)]

/-- Python dict lookup `d[k]` on an association list. -/
def dictGet (m : List (Nat × List Landmark)) (k : Nat) :
    Option (List Landmark) :=
  (m.find? (fun kv => kv.1 = k)).map Prod.snd

/-- Main.py lines 49-73: the routing core of `detect_and_format_hand_data`.
The detector call `detector.findHands(img)` is external; its output list of
hands is taken as input.  The dict is initialised with the default record on
both ports, then each hand overwrites the record of its routed port.  (The
Python `if hands:` guard is redundant for the dict: looping over an empty
list changes nothing.) -/
def detect_and_format_hand_data (hands : List Hand) (original_height : Int) :
    List (Nat × List Landmark) :=
  let default_hand_data := create_default_hand_data
  let data_to_send :=
    [(RIGHT_HAND_PORT, default_hand_data), (LEFT_HAND_PORT, default_hand_data)]
  hands.foldl
    (fun m hand =>
      dictInsert m (route_port hand.type)
        (format_hand_data hand.lmList original_height))
    data_to_send

/-! ## Dictionary lemmas -/

theorem find_replace_self (m : List (Nat × List Landmark)) (k : Nat)
    (v : List Landmark) (h : m.any (fun kv => kv.1 = k) = true) :
    (m.map (fun kv => if kv.1 = k then (k, v) else kv)).find?
      (fun kv => kv.1 = k) = some (k, v) := by
  induction m with
  | nil => simp at h
  | cons hd tl ih =>
    by_cases hk : hd.1 = k
    · simp only [List.map_cons, if_pos hk]
      rw [List.find?_cons_of_pos]
      simp
    · simp only [List.map_cons, if_neg hk]
      rw [List.find?_cons_of_neg]
      · exact ih (by simpa [hk] using h)
      · simp [hk]

theorem find_append_self (m : List (Nat × List Landmark)) (k : Nat)
    (v : List Landmark) (h : m.any (fun kv => kv.1 = k) = false) :
    (m ++ [(k, v)]).find? (fun kv => kv.1 = k) = some (k, v) := by
  induction m with
  | nil =>
    rw [List.nil_append, List.find?_cons_of_pos]
    simp
  | cons hd tl ih =>
    simp only [List.any_cons, Bool.or_eq_false_iff,
      decide_eq_false_iff_not] at h
    rw [List.cons_append, List.find?_cons_of_neg]
    · exact ih (by simp [h.2])
    · simp [h.1]

theorem find_replace_other (m : List (Nat × List Landmark)) (k k' : Nat)
    (v : List Landmark) (hne : k ≠ k') :
    (m.map (fun kv => if kv.1 = k' then (k', v) else kv)).find?
      (fun kv => kv.1 = k) = m.find? (fun kv => kv.1 = k) := by
  induction m with
  | nil => rfl
  | cons hd tl ih =>
    by_cases hk' : hd.1 = k'
    · have hk : ¬ hd.1 = k := fun hh => hne (hh.symm.trans hk')
      simp only [List.map_cons, if_pos hk']
      rw [List.find?_cons_of_neg, List.find?_cons_of_neg]
      · exact ih
      · simp [hk]
      · simp [Ne.symm hne]
    · simp only [List.map_cons, if_neg hk']
      by_cases hk : hd.1 = k
      · rw [List.find?_cons_of_pos, List.find?_cons_of_pos] <;> simp [hk]
      · rw [List.find?_cons_of_neg, List.find?_cons_of_neg]
        · exact ih
        · simp [hk]
        · simp [hk]

theorem find_append_other (m : List (Nat × List Landmark)) (k k' : Nat)
    (v : List Landmark) (hne : k ≠ k') :
    (m ++ [(k', v)]).find? (fun kv => kv.1 = k)
      = m.find? (fun kv => kv.1 = k) := by
  induction m with
  | nil =>
    rw [List.nil_append, List.find?_cons_of_neg]
    simp [Ne.symm hne]
  | cons hd tl ih =>
    by_cases hk : hd.1 = k
    · rw [List.cons_append, List.find?_cons_of_pos, List.find?_cons_of_pos]
        <;> simp [hk]
    · rw [List.cons_append, List.find?_cons_of_neg, List.find?_cons_of_neg]
      · exact ih
      · simp [hk]
      · simp [hk]

theorem dictGet_insert_self (m : List (Nat × List Landmark)) (k : Nat)
    (v : List Landmark) : dictGet (dictInsert m k v) k = some v := by
  unfold dictGet dictInsert
  by_cases h : m.any (fun kv => kv.1 = k) = true
  · rw [if_pos h, find_replace_self m k v h]
    rfl
  · rw [if_neg h,
      find_append_self m k v (by simp only [Bool.not_eq_true] at h; exact h)]
    rfl

theorem dictGet_insert_other (m : List (Nat × List Landmark)) (k k' : Nat)
    (v : List Landmark) (hne : k ≠ k') :
    dictGet (dictInsert m k' v) k = dictGet m k := by
  unfold dictGet dictInsert
  by_cases h : m.any (fun kv => kv.1 = k') = true
  · rw [if_pos h, find_replace_other m k k' v hne]
  · rw [if_neg h, find_append_other m k k' v hne]

theorem dictInsert_keys (m : List (Nat × List Landmark)) (k : Nat)
    (v : List Landmark) (hmem : m.any (fun kv => kv.1 = k) = true) :
    (dictInsert m k v).map Prod.fst = m.map Prod.fst := by
  unfold dictInsert
  rw [if_pos hmem, List.map_map]
  apply List.map_congr_left
  intro kv _
  by_cases hk : kv.1 = k
  · simp [hk]
  · simp [hk]

theorem any_key_iff (m : List (Nat × List Landmark)) (k : Nat) :
    m.any (fun kv => kv.1 = k) = true ↔ k ∈ m.map Prod.fst := by
  simp [List.any_eq_true, List.mem_map]

/-! ## Claims C1-C3 -/

/-- Claim C1: for every landmark list, height and index, the i-th output
landmark of `format_hand_data` is the i-th input landmark with y replaced by
`original_height - y` and x, z unchanged; the arithmetic is over `Int`, so
nothing is clamped and the result may be negative. -/
theorem format_hand_data_pointwise (landmarks : List Landmark)
    (original_height : Int) (i : Nat) :
    (format_hand_data landmarks original_height)[i]? =
      (landmarks[i]?).map
        (fun lm => (lm.1, original_height - lm.2.1, lm.2.2)) := by
  simp [format_hand_data]

/-- Claim C2: the coordinate transform is its own inverse: applying
`format_hand_data` twice with the same height returns the original list. -/
theorem format_hand_data_involutive (landmarks : List Landmark)
    (original_height : Int) :
    format_hand_data (format_hand_data landmarks original_height)
      original_height = landmarks := by
  induction landmarks with
  | nil => rfl
  | cons lm rest ih =>
    simp [format_hand_data] at ih ⊢
    exact ih

/-- Claim C3: with zero detected hands, the router returns the default
21-zero-landmark record on both the right-hand port 5052 and the left-hand
port 5053. -/
theorem zero_hands_default (original_height : Int) :
    dictGet (detect_and_format_hand_data [] original_height) RIGHT_HAND_PORT
        = some create_default_hand_data ∧
      dictGet (detect_and_format_hand_data [] original_height) LEFT_HAND_PORT
        = some create_default_hand_data := by
  constructor <;> rfl

/-! ## Claims C4-C7 and C10: routing -/

/-- The initial dictionary of `detect_and_format_hand_data`: the default
record on both ports (Main.py lines 59-62). -/
def initial_data : List (Nat × List Landmark) :=
  [(RIGHT_HAND_PORT, create_default_hand_data),
    (LEFT_HAND_PORT, create_default_hand_data)]

theorem detect_eq_foldl (hands : List Hand) (original_height : Int) :
    detect_and_format_hand_data hands original_height =
      hands.foldl
        (fun m hand =>
          dictInsert m (route_port hand.type)
            (format_hand_data hand.lmList original_height))
        initial_data := rfl

/-- Claim C4: with exactly one detected hand, the port mapped to its
handedness carries its transformed landmarks and the other port carries the
default record. -/
theorem one_hand_routing (h : Hand) (H : Int) :
    (h.type = "Right" →
      dictGet (detect_and_format_hand_data [h] H) RIGHT_HAND_PORT
          = some (format_hand_data h.lmList H) ∧
        dictGet (detect_and_format_hand_data [h] H) LEFT_HAND_PORT
          = some create_default_hand_data) ∧
    (h.type = "Left" →
      dictGet (detect_and_format_hand_data [h] H) LEFT_HAND_PORT
          = some (format_hand_data h.lmList H) ∧
        dictGet (detect_and_format_hand_data [h] H) RIGHT_HAND_PORT
          = some create_default_hand_data) := by
  have e1 : detect_and_format_hand_data [h] H
      = dictInsert initial_data (route_port h.type)
          (format_hand_data h.lmList H) := rfl
  constructor
  · intro ht
    have hp : route_port h.type = RIGHT_HAND_PORT := by
      simp [route_port, ht]
    rw [e1, hp]
    refine ⟨dictGet_insert_self _ _ _, ?_⟩
    rw [dictGet_insert_other _ _ _ _ (by decide)]
    rfl
  · intro ht
    have hp : route_port h.type = LEFT_HAND_PORT := by
      simp [route_port, ht]
    rw [e1, hp]
    refine ⟨dictGet_insert_self _ _ _, ?_⟩
    rw [dictGet_insert_other _ _ _ _ (by decide)]
    rfl

/-- Claim C4 witness: a single right hand with landmark (100, 50, 0) at
height 720 yields (100, 670, 0) on port 5052 and the default on 5053. -/
theorem one_hand_routing_witness :
    dictGet (detect_and_format_hand_data [Hand.mk "Right" [(100, 50, 0)]] 720)
        RIGHT_HAND_PORT = some [(100, 670, 0)] ∧
      dictGet (detect_and_format_hand_data [Hand.mk "Right" [(100, 50, 0)]]
        720) LEFT_HAND_PORT = some create_default_hand_data := by
  have h1 := (one_hand_routing (Hand.mk "Right" [(100, 50, 0)]) 720).1 rfl
  exact ⟨by rw [h1.1]; rfl, h1.2⟩

/-- Claim C5: with one Right-tagged and one Left-tagged hand (in either
order), each port carries its own hand's transformed landmarks. -/
theorem two_hands_routing (hR hL : Hand) (H : Int)
    (hr : hR.type = "Right") (hl : hL.type = "Left") :
    (dictGet (detect_and_format_hand_data [hR, hL] H) RIGHT_HAND_PORT
        = some (format_hand_data hR.lmList H) ∧
      dictGet (detect_and_format_hand_data [hR, hL] H) LEFT_HAND_PORT
        = some (format_hand_data hL.lmList H)) ∧
    (dictGet (detect_and_format_hand_data [hL, hR] H) RIGHT_HAND_PORT
        = some (format_hand_data hR.lmList H) ∧
      dictGet (detect_and_format_hand_data [hL, hR] H) LEFT_HAND_PORT
        = some (format_hand_data hL.lmList H)) := by
  have hpR : route_port hR.type = RIGHT_HAND_PORT := by simp [route_port, hr]
  have hpL : route_port hL.type = LEFT_HAND_PORT := by simp [route_port, hl]
  have e1 : detect_and_format_hand_data [hR, hL] H
      = dictInsert
          (dictInsert initial_data (route_port hR.type)
            (format_hand_data hR.lmList H))
          (route_port hL.type) (format_hand_data hL.lmList H) := rfl
  have e2 : detect_and_format_hand_data [hL, hR] H
      = dictInsert
          (dictInsert initial_data (route_port hL.type)
            (format_hand_data hL.lmList H))
          (route_port hR.type) (format_hand_data hR.lmList H) := rfl
  rw [e1, e2, hpR, hpL]
  refine ⟨⟨?_, ?_⟩, ?_, ?_⟩
  · rw [dictGet_insert_other _ _ _ _ (by decide)]
    exact dictGet_insert_self _ _ _
  · exact dictGet_insert_self _ _ _
  · exact dictGet_insert_self _ _ _
  · rw [dictGet_insert_other _ _ _ _ (by decide)]
    exact dictGet_insert_self _ _ _

/-- Claim C5 witness: a right hand with landmark (1, 2, 3) and a left hand
with landmark (4, 5, 6) at height 720, in both iteration orders. -/
theorem two_hands_routing_witness :
    (dictGet (detect_and_format_hand_data
          [Hand.mk "Right" [(1, 2, 3)], Hand.mk "Left" [(4, 5, 6)]] 720)
        RIGHT_HAND_PORT = some [(1, 718, 3)] ∧
      dictGet (detect_and_format_hand_data
          [Hand.mk "Right" [(1, 2, 3)], Hand.mk "Left" [(4, 5, 6)]] 720)
        LEFT_HAND_PORT = some [(4, 715, 6)]) ∧
    (dictGet (detect_and_format_hand_data
          [Hand.mk "Left" [(4, 5, 6)], Hand.mk "Right" [(1, 2, 3)]] 720)
        RIGHT_HAND_PORT = some [(1, 718, 3)] ∧
      dictGet (detect_and_format_hand_data
          [Hand.mk "Left" [(4, 5, 6)], Hand.mk "Right" [(1, 2, 3)]] 720)
        LEFT_HAND_PORT = some [(4, 715, 6)]) := by
  have h := two_hands_routing (Hand.mk "Right" [(1, 2, 3)])
    (Hand.mk "Left" [(4, 5, 6)]) 720 rfl rfl
  exact ⟨⟨by rw [h.1.1]; rfl, by rw [h.1.2]; rfl⟩,
    by rw [h.2.1]; rfl, by rw [h.2.2]; rfl⟩

/-- Claim C6: when every earlier observation carries the same handedness
label as the last one, the port for that label ends up holding the last
observation's transformed landmarks — last-write-wins, no validation. -/
theorem duplicate_handedness_last_wins (hs : List Hand) (h : Hand) (H : Int)
    (_hsame : ∀ h' ∈ hs, h'.type = h.type) :
    dictGet (detect_and_format_hand_data (hs ++ [h]) H) (route_port h.type)
      = some (format_hand_data h.lmList H) := by
  rw [detect_eq_foldl, List.foldl_append]
  simp only [List.foldl_cons, List.foldl_nil]
  exact dictGet_insert_self _ _ _

/-- Claim C6 witness: two Right-tagged observations; port 5052 holds the
transformed landmarks of the second one. -/
theorem duplicate_handedness_last_wins_witness :
    (∀ h' ∈ [Hand.mk "Right" [(1, 2, 3)]],
        Hand.type h' = Hand.type (Hand.mk "Right" [(7, 8, 9)])) ∧
      dictGet (detect_and_format_hand_data
          [Hand.mk "Right" [(1, 2, 3)], Hand.mk "Right" [(7, 8, 9)]] 720)
        (route_port "Right") = some [(7, 712, 9)] := by
  refine ⟨?_, ?_⟩
  · intro h' hm
    rcases List.mem_singleton.mp hm with rfl
    rfl
  · have h := duplicate_handedness_last_wins [Hand.mk "Right" [(1, 2, 3)]]
      (Hand.mk "Right" [(7, 8, 9)]) 720
      (by intro h' hm; rcases List.mem_singleton.mp hm with rfl; rfl)
    have h2 : dictGet (detect_and_format_hand_data
        [Hand.mk "Right" [(1, 2, 3)], Hand.mk "Right" [(7, 8, 9)]] 720)
        (route_port "Right") = some (format_hand_data [(7, 8, 9)] 720) := h
    rw [h2]
    rfl

/-- Claim C7: for every detector output, the router's dictionary has exactly
the two keys 5052 (right) and 5053 (left), in that insertion order. -/
theorem router_keys_invariant (hands : List Hand) (original_height : Int) :
    (detect_and_format_hand_data hands original_height).map Prod.fst
      = [RIGHT_HAND_PORT, LEFT_HAND_PORT] := by
  rw [detect_eq_foldl]
  have main : ∀ (hs : List Hand) (m : List (Nat × List Landmark)),
      m.map Prod.fst = [RIGHT_HAND_PORT, LEFT_HAND_PORT] →
      ((hs.foldl
        (fun m hand =>
          dictInsert m (route_port hand.type)
            (format_hand_data hand.lmList original_height)) m).map Prod.fst)
        = [RIGHT_HAND_PORT, LEFT_HAND_PORT] := by
    intro hs
    induction hs with
    | nil => intro m hkeys; simpa using hkeys
    | cons hd tl ih =>
      intro m hkeys
      simp only [List.foldl_cons]
      apply ih
      have hmem : m.any (fun kv => kv.1 = route_port hd.type) = true := by
        rw [any_key_iff, hkeys]
        unfold route_port
        split <;> simp
      rw [dictInsert_keys _ _ _ hmem]
      exact hkeys
  exact main hands initial_data rfl

/-- Claim C10: the routing decision is a single equality test against
"Right": a Right-tagged hand goes to port 5052, and a hand with any other
label whatsoever goes to port 5053 — there is no rejection branch. -/
theorem routing_single_equality (h : Hand) (H : Int) :
    (h.type = "Right" →
      route_port h.type = RIGHT_HAND_PORT ∧
        dictGet (detect_and_format_hand_data [h] H) RIGHT_HAND_PORT
          = some (format_hand_data h.lmList H)) ∧
    (h.type ≠ "Right" →
      route_port h.type = LEFT_HAND_PORT ∧
        dictGet (detect_and_format_hand_data [h] H) LEFT_HAND_PORT
          = some (format_hand_data h.lmList H)) := by
  have e1 : detect_and_format_hand_data [h] H
      = dictInsert initial_data (route_port h.type)
          (format_hand_data h.lmList H) := rfl
  constructor
  · intro ht
    have hp : route_port h.type = RIGHT_HAND_PORT := by simp [route_port, ht]
    exact ⟨hp, by rw [e1, hp]; exact dictGet_insert_self _ _ _⟩
  · intro ht
    have hp : route_port h.type = LEFT_HAND_PORT := by simp [route_port, ht]
    exact ⟨hp, by rw [e1, hp]; exact dictGet_insert_self _ _ _⟩

/-- Claim C10 witness: an unexpected label "Alien" is routed to the
left-hand port 5053, not rejected. -/
theorem routing_single_equality_witness :
    route_port "Alien" = LEFT_HAND_PORT ∧
      dictGet (detect_and_format_hand_data [Hand.mk "Alien" [(1, 2, 3)]] 720)
        LEFT_HAND_PORT = some [(1, 718, 3)] := by
  have h := (routing_single_equality (Hand.mk "Alien" [(1, 2, 3)]) 720).2
    (by simp)
  exact ⟨h.1, by rw [h.2]; rfl⟩

/-! ## Claim C8: transport -/

/-- Main.py lines 75-81: `send_hand_data` iterates over the dict items; each
`sock.sendto` call is modelled by an abstract `sendto` that either succeeds
or raises (`Except.error`).  The `try/except` body catches a raise and logs
it, so the iteration always proceeds to the next port and the function
always returns.  The result collects the ports on which a send was
attempted and the logged error messages. -/
def send_hand_data (sendto : Nat → List Landmark → Except String Unit)
    (data_to_send : List (Nat × List Landmark)) : List Nat × List String :=
  data_to_send.foldl
    (fun acc pd =>
      match sendto pd.1 pd.2 with
      | Except.ok _ => (acc.1 ++ [pd.1], acc.2)
      | Except.error e => (acc.1 ++ [pd.1], acc.2 ++ [e]))
    ([], [])

/-- Claim C8: on a two-entry destination map, if the send on either port
raises, the send on the other port is still attempted in the same call (both
ports appear, in order, in the attempted list) and the error is merely
logged — `send_hand_data` is total, so nothing propagates. -/
theorem send_failure_isolated
    (sendto : Nat → List Landmark → Except String Unit) (p1 p2 : Nat)
    (d1 d2 : List Landmark) (e : String)
    (hfail : sendto p1 d1 = Except.error e ∨ sendto p2 d2 = Except.error e) :
    (send_hand_data sendto [(p1, d1), (p2, d2)]).1 = [p1, p2] ∧
      e ∈ (send_hand_data sendto [(p1, d1), (p2, d2)]).2 := by
  unfold send_hand_data
  rcases hfail with h1 | h2
  · simp only [List.foldl_cons, List.foldl_nil, h1]
    cases hx : sendto p2 d2 <;> simp
  · cases hx : sendto p1 d1 <;>
      simp only [List.foldl_cons, List.foldl_nil, hx, h2] <;> simp

/-- Claim C8 witness: with a socket that raises "boom" on port 5052 and
succeeds on 5053, both ports are attempted and "boom" is logged. -/
theorem send_failure_isolated_witness :
    (send_hand_data
        (fun p _ => if p = RIGHT_HAND_PORT then Except.error "boom"
          else Except.ok ())
        [(RIGHT_HAND_PORT, create_default_hand_data),
          (LEFT_HAND_PORT, create_default_hand_data)]).1
      = [RIGHT_HAND_PORT, LEFT_HAND_PORT] ∧
    "boom" ∈ (send_hand_data
        (fun p _ => if p = RIGHT_HAND_PORT then Except.error "boom"
          else Except.ok ())
        [(RIGHT_HAND_PORT, create_default_hand_data),
          (LEFT_HAND_PORT, create_default_hand_data)]).2 :=
  send_failure_isolated _ RIGHT_HAND_PORT LEFT_HAND_PORT
    create_default_hand_data create_default_hand_data "boom" (Or.inl rfl)

/-! ## Claim C9: orchestration loop -/

/-- A captured frame, abstracted to what the loop extracts from it: the
hands the detector reports on it and whether the quit key is pressed during
the `waitKey` poll of its iteration. -/
structure Frame where
  hands : List Hand
  quitKey : Bool

/-- The externally observable events of one run of `main_loop`. -/
inductive Event where
  | frameGrabFailed
  | sent (ports : List Nat)
  | released
  | windowsDestroyed

/-- Main.py lines 106-126: the iteration part of `main_loop`.  `cap.read` is
modelled by a finite stream of read results (`none` = read failure); a
failed read logs `frameGrabFailed` and breaks with no send that iteration; a
successful iteration routes the frame's hands with `ORIGINAL_HEIGHT`, sends
on every port, then polls the quit key.  An exhausted stream ends the
recursion (the model observes finitely many iterations of the infinite
`while True`). -/
def loop_iterations (sendto : Nat → List Landmark → Except String Unit) :
    List (Option Frame) → List Event
  | [] => []
  | Option.none :: _ => [Event.frameGrabFailed]
  | Option.some f :: rest =>
      Event.sent (send_hand_data sendto
          (detect_and_format_hand_data f.hands ORIGINAL_HEIGHT)).1 ::
        (if f.quitKey then [] else loop_iterations sendto rest)

/-- Main.py lines 104-129: `main_loop` runs the iterations and then, after
the loop exits for any reason, executes `cap.release()` and
`cv2.destroyAllWindows()`. -/
def main_loop (sendto : Nat → List Landmark → Except String Unit)
    (reads : List (Option Frame)) : List Event :=
  loop_iterations sendto reads ++ [Event.released, Event.windowsDestroyed]

/-- Claim C9: if a read fails after any number of successful non-quit
iterations, the loop performs exactly one send per earlier frame, logs the
failure, performs no send for the failing iteration, ignores the rest of the
stream (no retry), and the camera release and window destruction still run.
A failure on the very first read therefore yields zero sends. -/
theorem capture_failure_fatal
    (sendto : Nat → List Landmark → Except String Unit)
    (frames : List Frame) (rest : List (Option Frame))
    (hq : ∀ f ∈ frames, f.quitKey = false) :
    main_loop sendto (frames.map Option.some ++ Option.none :: rest)
      = frames.map (fun f => Event.sent (send_hand_data sendto
            (detect_and_format_hand_data f.hands ORIGINAL_HEIGHT)).1)
        ++ [Event.frameGrabFailed, Event.released, Event.windowsDestroyed]
    := by
  have key : ∀ (fr : List Frame), (∀ f ∈ fr, f.quitKey = false) →
      loop_iterations sendto (fr.map Option.some ++ Option.none :: rest)
        = fr.map (fun f => Event.sent (send_hand_data sendto
              (detect_and_format_hand_data f.hands ORIGINAL_HEIGHT)).1)
          ++ [Event.frameGrabFailed] := by
    intro fr
    induction fr with
    | nil => intro _; rfl
    | cons f fs ih =>
      intro hq2
      have hf : f.quitKey = false := hq2 f (List.mem_cons_self f fs)
      simp only [List.map_cons, List.cons_append, loop_iterations, hf,
        Bool.false_eq_true, if_false, List.append_eq]
      rw [ih (fun g hg => hq2 g (List.mem_cons_of_mem f hg))]
  unfold main_loop
  rw [key frames hq, List.append_assoc]
  rfl

/-- Claim C9 witness: a failure on the very first read produces zero sends,
one logged grab failure, and the cleanup events. -/
theorem capture_failure_fatal_witness :
    main_loop (fun _ _ => Except.ok ()) [Option.none]
      = [Event.frameGrabFailed, Event.released, Event.windowsDestroyed] := by
  have h := capture_failure_fatal (fun _ _ => Except.ok ()) [] []
    (by intro f hf; exact absurd hf (List.not_mem_nil f))
  exact h

end Spec2Proof
